import Mathlib

/-!
Verification development for the MADS (Multi-Agent Documentation System)
repository (`main.py`).  The deterministic scaffolding of the program is
embedded shallowly: the two utility tools (file writer, code scanner), the
declarative agent/task data, the sequential pipeline runner and the CLI
entry point.  File contents are modelled as Lean `String`s (Python 3
strings; UTF-8 is the on-disk encoding on both sides) and the file system
as explicit state records.
-/

namespace MADS

/-- The apostrophe character, used inside several message strings of the
program (for example `File 'x' successfully written ...`). -/
def sq : String := String.singleton (Char.ofNat 39)

/-- Python `str.strip()` on a list of characters: drop whitespace at both
ends. -/
def pyStrip (l : List Char) : List Char :=
  ((l.dropWhile Char.isWhitespace).reverse.dropWhile Char.isWhitespace).reverse

/-- Python `str.startswith(p)`: the characters `p` are an initial segment
of `l`. -/
def pyStartsWith (p : List Char) : List Char → Bool :=
  fun l =>
    match p, l with
    | [], _ => true
    | _ :: _, [] => false
    | a :: as, b :: bs => a = b && pyStartsWith as bs

/-- Python substring containment `needle in hay` (left-to-right scan). -/
def pyContains (needle : List Char) : List Char → Bool
  | [] => pyStartsWith needle []
  | c :: cs => pyStartsWith needle (c :: cs) || pyContains needle cs

/-- Python `content.split(sep)` for a one-character separator: splitting
the empty text yields `[[]]` (one empty line). -/
def pySplitChar (sep : Char) : List Char → List (List Char)
  | [] => [[]]
  | c :: cs =>
    match pySplitChar sep cs with
    | [] => [[]]
    | l :: ls => if c = sep then [] :: l :: ls else (c :: l) :: ls

theorem pySplitChar_ne_nil (sep : Char) (l : List Char) :
    pySplitChar sep l ≠ [] := by
  cases l with
  | nil => simp [pySplitChar]
  | cons c cs =>
    simp only [pySplitChar]
    cases h : pySplitChar sep cs with
    | nil => simp
    | cons a as =>
      by_cases hc : c = sep <;> simp [hc]

/-- The number of pieces produced by a split is the separator count plus
one (so even the empty text has one line). -/
theorem pySplitChar_length (sep : Char) (l : List Char) :
    (pySplitChar sep l).length = l.count sep + 1 := by
  induction l with
  | nil => simp [pySplitChar]
  | cons c cs ih =>
    simp only [pySplitChar]
    cases h : pySplitChar sep cs with
    | nil => exact absurd h (pySplitChar_ne_nil sep cs)
    | cons a as =>
      rw [h] at ih
      have ih' : as.length + 1 = List.count sep cs + 1 := by simpa using ih
      by_cases hc : c = sep
      · subst hc
        simp [List.count_cons]
        omega
      · simp [hc, List.count_cons, Ne.symm hc]
        omega

theorem pyStartsWith_iff (p l : List Char) :
    pyStartsWith p l = true ↔ p <+: l := by
  induction p generalizing l with
  | nil => simp [pyStartsWith]
  | cons a as ih =>
    cases l with
    | nil => simp [pyStartsWith]
    | cons b bs =>
      simp [pyStartsWith, ih, List.cons_prefix_cons]

theorem pyContains_iff (n h : List Char) :
    pyContains n h = true ↔ n <:+: h := by
  induction h with
  | nil =>
    simp [pyContains, pyStartsWith_iff, List.prefix_nil, List.infix_nil]
  | cons c cs ih =>
    simp only [pyContains, Bool.or_eq_true, pyStartsWith_iff, ih]
    constructor
    · rintro (hp | hi)
      · exact hp.isInfix
      · exact hi.trans (List.infix_cons (List.infix_refl cs))
    · rintro ⟨s, t, hst⟩
      cases s with
      | nil => exact Or.inl ⟨t, by simpa using hst⟩
      | cons x xs =>
        refine Or.inr ⟨xs, t, ?_⟩
        simpa using congrArg List.tail hst

/-- Python `os.path.dirname` on character lists (posix rules): everything
up to the last slash; a head that is not all slashes loses its trailing
slashes. -/
def dirnameChars (p : List Char) : List Char :=
  let head := (p.reverse.dropWhile (· ≠ '/')).reverse
  if head ≠ [] ∧ ¬ head.all (· = '/') then
    (head.reverse.dropWhile (· = '/')).reverse
  else head

/-- Python `os.path.dirname`. -/
def pyDirname (p : String) : String := String.mk (dirnameChars p.data)

/-- The chain of directories `os.makedirs` creates for `d`: `d` and its
ancestors, innermost first, stopping at the root or at an empty parent.
The fuel argument bounds the recursion by the length of the path. -/
def dirChain : Nat → String → List String
  | 0, _ => []
  | fuel + 1, d =>
      if d = "" then []
      else
        let parent := pyDirname d
        if parent = d ∨ parent = "" then [d] else d :: dirChain fuel parent

/-- All directories created by `os.makedirs d`. -/
def pyMakedirsChain (d : String) : List String := dirChain (d.length + 1) d

/-- The file-system state visible to the tools: file contents by path and
the set of existing directories. -/
structure FSState where
  files : String → Option String
  dirs : String → Bool

/-- Python `os.path.exists`: true for an existing directory or file. -/
def fsExists (st : FSState) (p : String) : Bool :=
  st.dirs p || (st.files p).isSome

/-- A Python exception, split by whether `except IOError` catches it:
`ioError` covers `IOError`/`OSError` (permissions, invalid path, disk
errors); `otherError` is any exception outside that hierarchy. -/
inductive PyExn where
  | ioError (msg : String)
  | otherError (msg : String)
deriving DecidableEq

/-- The two fallible file-system primitives called by
`FileWriteTool._run`: `os.makedirs` and `open(...,"w")` followed by
`f.write`.  They are parameters so that failing environments can be
described; `realFsPrims` below gives the semantics on a fully writable
file system. -/
structure FsPrims where
  makedirs : FSState → String → Except PyExn FSState
  openWrite : FSState → String → String → Except PyExn FSState

/-- The primitives on a writable file system: `makedirs` records the whole
directory chain, `openWrite` creates or overwrites the file with exactly
the given content; neither fails. -/
def realFsPrims : FsPrims where
  makedirs st d :=
    .ok { st with dirs := fun q => (pyMakedirsChain d).contains q || st.dirs q }
  openWrite st p c :=
    .ok { st with files := fun q => if q = p then some c else st.files q }

/-- The `except IOError as e: return ...` boundary of `FileWriteTool._run`:
an `ioError` is converted to the error string, any other exception
propagates. -/
def catchIOError (file_path : String) : PyExn → Except PyExn String
  | .ioError m => .ok ("Error writing file " ++ sq ++ file_path ++ sq ++ ": " ++ m)
  | .otherError m => .error (.otherError m)

/-- `FileWriteTool._run(file_path, content)`: ensure the parent directory
exists (creating it when the dirname is non-empty and absent), write the
content, and return the success message; an `IOError` anywhere in the
`try` block is caught and reported as a string.  The result pair is the
file system after the call and either the returned string (`.ok`) or an
uncaught exception (`.error`). -/
def fileWriteTool_run (prims : FsPrims) (st : FSState) (file_path content : String) :
    FSState × Except PyExn String :=
  let output_dir := pyDirname file_path
  let step1 : Except PyExn FSState :=
    if output_dir ≠ "" ∧ fsExists st output_dir = false then prims.makedirs st output_dir
    else .ok st
  match step1 with
  | .error e => (st, catchIOError file_path e)
  | .ok st1 =>
    match prims.openWrite st1 file_path content with
    | .error e => (st1, catchIOError file_path e)
    | .ok st2 =>
      (st2, .ok ("File " ++ sq ++ file_path ++ sq ++ " successfully written with "
        ++ toString content.length ++ " characters."))

/-- The `name` attribute of `FileWriteTool`. -/
def fileWriteTool_name : String := "File Writer"

/-- The extension part of Python `os.path.splitext` (posix rules): the
piece of the basename from its last dot, unless every character before
that dot is itself a dot (then there is no extension). -/
def pySplitextExt (p : String) : String :=
  let base := (p.data.reverse.takeWhile (· ≠ '/')).reverse
  let afterRev := base.reverse.takeWhile (· ≠ '.')
  if afterRev.length = base.length then ""
  else
    let pre := base.take (base.length - afterRev.length - 1)
    if pre.all (· = '.') then "" else String.mk ('.' :: afterRev.reverse)

/-- The `analysis` dictionary built by `CodeAnalyzerTool._run` (the
`json.dumps` serialization of this record is not modelled; the claims
concern its fields). -/
structure Analysis where
  file : String
  lines : Nat
  has_classes : Bool
  has_functions : Bool
  imports : List String
  file_type : String
deriving DecidableEq

/-- The fixed import-marker tuple of `CodeAnalyzerTool._run`:
`('import ', 'from ', 'require', 'include')`. -/
def importMarkers : List (List Char) :=
  ["import ".data, "from ".data, "require".data, "include".data]

/-- `l.startswith(('import ', 'from ', 'require', 'include'))` for a
(stripped) line. -/
def isImportLine (l : List Char) : Bool :=
  importMarkers.any (fun m => pyStartsWith m l)

/-- `CodeAnalyzerTool._run(file_path)`: read the file (`readFile` stands
for `open(file_path).read()`, returning content or the text of the raised
exception, which the `except Exception` clause converts to the error
string) and compute the analysis record from the content. -/
def codeAnalyzerTool_run (readFile : String → Except String String)
    (file_path : String) : Except String Analysis :=
  match readFile file_path with
  | .error e => .error ("Error analyzing " ++ file_path ++ ": " ++ e)
  | .ok content =>
    let lines := pySplitChar '\n' content.data
    .ok {
      file := file_path
      lines := lines.length
      has_classes := pyContains "class ".data content.data
      has_functions := pyContains "def ".data content.data
        || pyContains "function ".data content.data
      imports := lines.filterMap (fun l =>
        let s := pyStrip l
        if isImportLine s then some (String.mk s) else none)
      file_type := pySplitextExt file_path }

/-- The `name` attribute of `CodeAnalyzerTool`. -/
def codeAnalyzerTool_name : String := "Code Analyzer"

/-- The four tool instances of the program, as a closed enumeration. -/
inductive ToolRef where
  | directory_tool
  | file_tool
  | file_write_tool
  | code_analyzer_tool
deriving DecidableEq

/-- A `ChatOpenAI` configuration: model name and sampling temperature
(stored scaled by ten, since the Python floats 0.7 and 0.3 are exact
tenths). -/
structure LLMConfig where
  model : String
  temperatureTimesTen : Nat
deriving DecidableEq

/-- `llm = ChatOpenAI(model="gpt-4o-mini", temperature=0.7)`. -/
def llm : LLMConfig := { model := "gpt-4o-mini", temperatureTimesTen := 7 }

/-- `analyzer_llm = ChatOpenAI(model="gpt-4o-mini", temperature=0.3)`. -/
def analyzer_llm : LLMConfig := { model := "gpt-4o-mini", temperatureTimesTen := 3 }

/-- A crewai `Agent` definition: role, goal, backstory, flags, allowed
tools, model configuration and iteration cap. -/
structure AgentDef where
  role : String
  goal : String
  backstory : String
  verbose : Bool
  allow_delegation : Bool
  tools : List ToolRef
  llm : LLMConfig
  max_iter : Nat
deriving DecidableEq

/-- `navigator_agent`. -/
def navigator_agent : AgentDef where
  role := "Senior Project Navigator"
  goal := "Create a comprehensive map of the project structure, identifying all files, directories, and their relationships."
  backstory := "You are an experienced code explorer with 10+ years analyzing codebases. You excel at understanding project layouts, identifying entry points, configuration files, and creating clear mental models of how projects are organized. You always provide structured, hierarchical views of project directories."
  verbose := true
  allow_delegation := false
  tools := [ToolRef.directory_tool, ToolRef.file_tool]
  llm := llm
  max_iter := 5

/-- `code_analyzer_agent`. -/
def code_analyzer_agent : AgentDef where
  role := "Code Analysis Specialist"
  goal := "Analyze code files to understand functionality, dependencies, patterns, and architecture."
  backstory := "You are a senior software architect who specializes in reverse-engineering codebases. You can identify design patterns, understand dependencies, detect code smells, and explain complex logic in simple terms. You focus on understanding the " ++ sq ++ "why" ++ sq ++ " behind code structures."
  verbose := true
  allow_delegation := false
  tools := [ToolRef.file_tool, ToolRef.code_analyzer_tool]
  llm := analyzer_llm
  max_iter := 5

/-- `writer_agent`. -/
def writer_agent : AgentDef where
  role := "Senior Technical Documentation Expert"
  goal := "Create comprehensive, well-structured README.md documentation that is both informative and easy to understand."
  backstory := "You are a technical writer with expertise in creating developer documentation. You know how to structure README files with proper sections including: Project Overview, Features, Installation, Usage, Project Structure, Configuration, API Documentation, Contributing Guidelines, and License. You use markdown effectively with code blocks, tables, and clear formatting. You always ensure documentation is actionable and helpful."
  verbose := true
  allow_delegation := false
  tools := [ToolRef.file_write_tool]
  llm := llm
  max_iter := 3

/-- `reviewer_agent`. -/
def reviewer_agent : AgentDef where
  role := "Documentation Quality Reviewer"
  goal := "Review and enhance documentation for completeness, clarity, and technical accuracy."
  backstory := "You are a senior developer who reviews documentation for open-source projects. You ensure documentation is complete, accurate, follows best practices, and includes all necessary sections. You check for missing information, unclear explanations, and suggest improvements for better developer experience."
  verbose := true
  allow_delegation := false
  tools := [ToolRef.file_tool, ToolRef.file_write_tool]
  llm := llm
  max_iter := 2

/-- A crewai `Task`: templated description, expected-output guidance, the
assigned agent, and the `context` list.  In the source the context is a
list of earlier `Task` objects; here it is the list of their positions in
the crew's task list (`structure_analysis_task` is 0, `code_analysis_task`
is 1, `documentation_task` is 2, `review_task` is 3). -/
structure TaskDef where
  description : String
  expected_output : String
  agent : AgentDef
  context : List Nat
deriving DecidableEq

/-- `structure_analysis_task` (position 0; no `context` argument). -/
def structure_analysis_task : TaskDef where
  description := "Analyze the complete structure of the project in directory " ++ sq ++ "{project_directory}" ++ sq ++ ":\n    1. List all directories and subdirectories with their purposes\n    2. Identify all file types present (e.g., .py, .js, .json, .md)\n    3. Locate key files (README, configuration files, main entry points)\n    4. Create a hierarchical tree view of the project structure\n    5. Identify the technology stack based on file extensions and config files"
  expected_output := "A detailed project structure report including:\n    - Hierarchical directory tree\n    - List of all files grouped by type\n    - Identified technology stack\n    - Key configuration files\n    - Entry points and main modules"
  agent := navigator_agent
  context := []

/-- `code_analysis_task` (position 1; `context=[structure_analysis_task]`). -/
def code_analysis_task : TaskDef where
  description := "Based on the project structure, analyze the codebase in " ++ sq ++ "{project_directory}" ++ sq ++ ":\n    1. Examine main code files to understand functionality\n    2. Identify key classes, functions, and modules\n    3. Map dependencies and imports\n    4. Detect design patterns and architectural decisions\n    5. Note any external libraries or frameworks used\n    6. Identify API endpoints if applicable"
  expected_output := "A comprehensive code analysis report including:\n    - Main functionalities and features\n    - Key components and their responsibilities\n    - Dependency graph\n    - Used design patterns\n    - External dependencies list\n    - API documentation if applicable"
  agent := code_analyzer_agent
  context := [0]

/-- `documentation_task` (position 2;
`context=[structure_analysis_task, code_analysis_task]`). -/
def documentation_task : TaskDef where
  description := "Create a professional README.md for the project in " ++ sq ++ "{project_directory}" ++ sq ++ ":\n    Use the structure and code analysis to write comprehensive documentation including:\n    1. Project title and description\n    2. Features and capabilities\n    3. Prerequisites and requirements\n    4. Installation instructions\n    5. Usage examples with code snippets\n    6. Project structure explanation\n    7. Configuration guide\n    8. API documentation (if applicable)\n    9. Contributing guidelines\n    10. License information\n    \n    Save the README.md in the project root directory."
  expected_output := "A complete, well-formatted README.md file saved in the project directory"
  agent := writer_agent
  context := [0, 1]

/-- `review_task` (position 3; `context=[documentation_task]`). -/
def review_task : TaskDef where
  description := "Review and enhance the generated README.md in " ++ sq ++ "{project_directory}" ++ sq ++ ":\n    1. Check for completeness of all sections\n    2. Verify technical accuracy\n    3. Ensure clarity and readability\n    4. Add missing information if needed\n    5. Format code examples properly\n    6. Add badges if applicable (version, license, etc.)\n    7. Ensure links and references are correct\n    8. Update the file with improvements"
  expected_output := "An enhanced, production-ready README.md with all improvements applied"
  agent := reviewer_agent
  context := [2]

/-- The crewai `Process` argument. -/
inductive ProcessKind where
  | sequential
  | hierarchical
deriving DecidableEq

/-- A crewai `Crew`. -/
structure CrewDef where
  agents : List AgentDef
  tasks : List TaskDef
  process : ProcessKind
  verbose : Bool
  memory : Bool
  full_output : Bool
deriving DecidableEq

/-- `documentation_crew`: the four agents and the four tasks, run
sequentially. -/
def documentation_crew : CrewDef where
  agents := [navigator_agent, code_analyzer_agent, writer_agent, reviewer_agent]
  tasks := [structure_analysis_task, code_analysis_task, documentation_task, review_task]
  process := ProcessKind.sequential
  verbose := true
  memory := true
  full_output := true

/-- The record kept for one executed pipeline stage: its position, its
declared `context` dependency list, the upstream results placed into its
assembled context (in the declared order), and the text the collaborator
returned for it. -/
structure StageRecord where
  index : Nat
  depends_on : List Nat
  upstream : List String
  output : String
deriving DecidableEq

/-- A stage failure surfaced by the runner: the position of the failing
stage and the collaborator's failure message. -/
structure StageFailure where
  stage : Nat
  msg : String
deriving DecidableEq

/-- Concatenation of the upstream results appended to a stage's context. -/
def concatAll (l : List String) : String := l.foldl (fun a b => a ++ b) ""

/-- Modelled from the spec: the context assembled for one stage — the
stage's templated description with the `{project_directory}` placeholder
resolved, its expected-output guidance, and the concatenated results of
the stages in its `context` list, in the listed order.  (The assembly
itself happens inside the external crewai library, which `src/main.py`
only configures; the spec, section 4.2, fixes its shape.)  The first
component is the list of upstream results included, the second the full
context text. -/
def assembleContext (t : TaskDef) (param : String) (prior : List String) :
    List String × String :=
  let upstream := t.context.map (fun j => prior.getD j "")
  (upstream,
    t.description.replace "{project_directory}" param ++ "\n"
      ++ t.expected_output ++ "\n" ++ concatAll upstream)

/-- Modelled from the spec: the sequential Pipeline Runner
(`Crew.kickoff` with `Process.sequential`, which lives in the external
crewai library; `src/main.py` only declares its inputs).  Stages run
strictly in list order; each stage's context is assembled by
`assembleContext` from the outputs captured so far; the collaborator is
called once per stage and a failure aborts the remaining stages, yielding
a `StageFailure` that names the failing stage.  The accumulator `tr`
carries the records of the stages already executed. -/
def runStages (collab : Nat → String → Except String String) (param : String) :
    List TaskDef → List StageRecord → List StageRecord × Option StageFailure
  | [], tr => (tr, none)
  | t :: rest, tr =>
    let prior := tr.map StageRecord.output
    let up := (assembleContext t param prior).1
    let ctx := (assembleContext t param prior).2
    match collab tr.length ctx with
    | .error e => (tr, some { stage := tr.length, msg := e })
    | .ok out =>
      runStages collab param rest
        (tr ++ [{ index := tr.length, depends_on := t.context, upstream := up, output := out }])

/-- Modelled from the spec: `crew.kickoff` with the runtime
`project_directory` input — run the task list of the crew from an empty
trace. -/
def crewKickoff (collab : Nat → String → Except String String)
    (crew : CrewDef) (param : String) : List StageRecord × Option StageFailure :=
  runStages collab param crew.tasks []

/-- The observable outcome of the `__main__` block: the strings printed
(one entry per `print` call), the process exit status, and whether
`documentation_crew.kickoff` was reached. -/
structure EntryResult where
  printed : List String
  exitCode : Nat
  pipelineInvoked : Bool
deriving DecidableEq

/-- The `"="*50` banner line. -/
def banner50 : String := String.mk (List.replicate 50 '=')

/-- Python `os.path.join` for the two-argument posix case used here. -/
def pyPathJoin (a b : String) : String :=
  if b.data.head? = some '/' then b
  else if a = "" ∨ a.data.getLast? = some '/' then a ++ b
  else a ++ "/" ++ b

/-- The `__main__` block of `src/main.py`.  `projectDir` is the resolved
`PROJECT_DIR` value, `dirFound` the result of `os.path.exists` on it,
`numFiles` the length of `os.listdir`, `kickoff` the outcome of
`documentation_crew.kickoff` (result text, or the message of the raised
exception), and `readmeLines` the line count of `PROJECT_DIR/README.md`
when that file exists afterwards.  Note the `except` branch only prints:
the script then falls off the end, so the interpreter exits with
status 0. -/
def mainEntry (projectDir : String) (dirFound : Bool) (numFiles : Nat)
    (kickoff : Except String String) (readmeLines : Option Nat) : EntryResult :=
  if !dirFound then
    { printed := ["ERROR: Directory " ++ sq ++ projectDir ++ sq ++ " not found!",
        "Please set PROJECT_DIR environment variable or ensure " ++ sq
          ++ "test_project" ++ sq ++ " exists."],
      exitCode := 1
      pipelineInvoked := false }
  else
    let header := ["✓ Target directory " ++ sq ++ projectDir ++ sq ++ " found.",
      "  Files found: " ++ toString numFiles,
      "\n" ++ banner50,
      "Starting MADS - Enhanced Documentation System",
      banner50 ++ "\n"]
    match kickoff with
    | .error e =>
      { printed := header ++ ["\n❌ Error during execution: " ++ e,
          "Please check your configuration and try again."],
        exitCode := 0
        pipelineInvoked := true }
    | .ok _ =>
      let done := ["\n" ++ banner50, "✓ Documentation Generation Complete!", banner50]
      let readme_path := pyPathJoin projectDir "README.md"
      let tailMsgs :=
        match readmeLines with
        | some n => ["✓ README.md created successfully (" ++ toString n ++ " lines)",
            "✓ Location: " ++ readme_path]
        | none => ["⚠ README.md not found in expected location"]
      { printed := header ++ done ++ tailMsgs
        exitCode := 0
        pipelineInvoked := true }

/-- A file system with no files and no directories, used to instantiate
the tool theorems. -/
def emptyFS : FSState where
  files := fun _ => none
  dirs := fun _ => false

/-- C4: for every non-empty content and writable path (the writable file
system is `realFsPrims`, whose primitives never fail),
`FileWriteTool._run` stores exactly `content` at `file_path` (Python
strings written with UTF-8 encoding on both sides) and returns the
success string carrying `len(content)`, so the status mentions the
correct character count. -/
theorem c4_write_stores_content_and_counts (st : FSState) (file_path content : String)
    (_hne : content ≠ "") :
    (fileWriteTool_run realFsPrims st file_path content).1.files file_path = some content ∧
    (fileWriteTool_run realFsPrims st file_path content).2 =
      Except.ok ("File " ++ sq ++ file_path ++ sq ++ " successfully written with "
        ++ toString content.length ++ " characters.") ∧
    (toString content.length).data <:+:
      ("File " ++ sq ++ file_path ++ sq ++ " successfully written with "
        ++ toString content.length ++ " characters.").data := by
  refine ⟨?_, ?_, ?_⟩
  · unfold fileWriteTool_run
    by_cases hc : pyDirname file_path ≠ "" ∧ fsExists st (pyDirname file_path) = false <;>
      simp [hc, realFsPrims]
  · unfold fileWriteTool_run
    by_cases hc : pyDirname file_path ≠ "" ∧ fsExists st (pyDirname file_path) = false <;>
      simp [hc, realFsPrims]
  · exact ⟨("File " ++ sq ++ file_path ++ sq ++ " successfully written with ").data,
      " characters.".data, by simp⟩

/-- Witness for C4 at a concrete file system, path and content. -/
theorem c4_witness :
    "demo" ≠ "" ∧
    (fileWriteTool_run realFsPrims emptyFS "out/readme.md" "demo").1.files "out/readme.md"
      = some "demo" := by
  refine ⟨by decide, ?_⟩
  exact (c4_write_stores_content_and_counts emptyFS "out/readme.md" "demo" (by decide)).1

/-- C5: whenever the primitives fail only with I/O errors (`IOError` /
`OSError`: permissions, invalid path, disk error), `FileWriteTool._run`
returns a string — its `except IOError` clause converts every such
failure, so no exception crosses the tool boundary. -/
theorem c5_io_failures_never_escape (prims : FsPrims)
    (hmk : ∀ st d e, prims.makedirs st d = Except.error e → ∃ m, e = PyExn.ioError m)
    (hop : ∀ st p c e, prims.openWrite st p c = Except.error e → ∃ m, e = PyExn.ioError m)
    (st : FSState) (file_path content : String) :
    ∃ s, (fileWriteTool_run prims st file_path content).2 = Except.ok s := by
  unfold fileWriteTool_run
  by_cases hc : pyDirname file_path ≠ "" ∧ fsExists st (pyDirname file_path) = false
  · simp only [if_pos hc]
    split
    next e heq =>
      obtain ⟨m, rfl⟩ := hmk _ _ _ heq
      exact ⟨_, rfl⟩
    next st1 heq =>
      split
      next e heq2 =>
        obtain ⟨m, rfl⟩ := hop _ _ _ _ heq2
        exact ⟨_, rfl⟩
      next st2 heq2 =>
        exact ⟨_, rfl⟩
  · simp only [if_neg hc]
    split
    next e heq =>
      obtain ⟨m, rfl⟩ := hop _ _ _ _ heq
      exact ⟨_, rfl⟩
    next st2 heq =>
      exact ⟨_, rfl⟩

/-- Witness for C5 with the writable primitives (vacuously I/O-only
failures) at a concrete call. -/
theorem c5_witness :
    ∃ s, (fileWriteTool_run realFsPrims emptyFS "out/readme.md" "demo").2 = Except.ok s :=
  c5_io_failures_never_escape realFsPrims
    (fun st d e h => by simp [realFsPrims] at h)
    (fun st p c e h => by simp [realFsPrims] at h)
    emptyFS "out/readme.md" "demo"

/-- C6: when the parent directory of `file_path` is absent,
`FileWriteTool._run` on the writable file system creates the whole
missing directory chain, still writes the file, and does not fail. -/
theorem c6_creates_missing_parent_chain (st : FSState) (file_path content : String)
    (h1 : pyDirname file_path ≠ "")
    (h2 : fsExists st (pyDirname file_path) = false) :
    (∀ d ∈ pyMakedirsChain (pyDirname file_path),
      (fileWriteTool_run realFsPrims st file_path content).1.dirs d = true) ∧
    (∃ s, (fileWriteTool_run realFsPrims st file_path content).2 = Except.ok s) ∧
    (fileWriteTool_run realFsPrims st file_path content).1.files file_path = some content := by
  have hc : pyDirname file_path ≠ "" ∧ fsExists st (pyDirname file_path) = false := ⟨h1, h2⟩
  refine ⟨?_, ?_, ?_⟩
  · intro d hd
    unfold fileWriteTool_run
    simp only [if_pos hc, realFsPrims]
    simp
    exact Or.inl hd
  · unfold fileWriteTool_run
    simp [if_pos hc, realFsPrims]
  · unfold fileWriteTool_run
    simp [if_pos hc, realFsPrims]

/-- Witness for C6: writing below the absent directory `docs/sub` creates
both `docs` and `docs/sub`. -/
theorem c6_witness :
    (fileWriteTool_run realFsPrims emptyFS "docs/sub/readme.md" "x").1.dirs "docs/sub" = true ∧
    (fileWriteTool_run realFsPrims emptyFS "docs/sub/readme.md" "x").1.dirs "docs" = true ∧
    (fileWriteTool_run realFsPrims emptyFS "docs/sub/readme.md" "x").1.files "docs/sub/readme.md"
      = some "x" := by
  have h := c6_creates_missing_parent_chain emptyFS "docs/sub/readme.md" "x"
    (by decide) (by rfl)
  exact ⟨h.1 "docs/sub" (by decide), h.1 "docs" (by decide), h.2.2⟩

/-- A `filterMap` whose function is an if-guard is the guarded `filter`
followed by a `map` (so it keeps the original order). -/
theorem filterMap_guard {α β : Type} (p : α → Bool) (g : α → β) (l : List α) :
    (l.filterMap fun a => if p a then some (g a) else none) = (l.filter p).map g := by
  induction l with
  | nil => rfl
  | cons a as ih =>
    by_cases h : p a <;> simp [List.filterMap_cons, List.filter_cons, h, ih]

/-- C7: for every readable file, `CodeAnalyzerTool._run` reports
`has_classes = true` exactly when the content contains the
class-definition keyword `"class "` as a substring, and `false` when it
does not. -/
theorem c7_class_flag_iff_keyword (readFile : String → Except String String)
    (file_path content : String) (h : readFile file_path = Except.ok content) :
    ∃ a, codeAnalyzerTool_run readFile file_path = Except.ok a ∧
      (a.has_classes = true ↔ "class ".data <:+: content.data) := by
  unfold codeAnalyzerTool_run
  rw [h]
  exact ⟨_, rfl, pyContains_iff "class ".data content.data⟩

/-- Witness for C7: a file consisting of a class definition gets the flag
set, one without any gets it cleared. -/
theorem c7_witness :
    ((codeAnalyzerTool_run (fun _ => Except.ok "class Calculator:\n    pass") "calc.py").toOption.map
        Analysis.has_classes) = some true ∧
    ((codeAnalyzerTool_run (fun _ => Except.ok "x = 1") "calc.py").toOption.map
        Analysis.has_classes) = some false := by
  constructor
  · obtain ⟨a, ha, hiff⟩ := c7_class_flag_iff_keyword
      (fun _ => Except.ok "class Calculator:\n    pass") "calc.py"
      "class Calculator:\n    pass" rfl
    have hc : a.has_classes = true :=
      hiff.mpr ((pyContains_iff "class ".data "class Calculator:\n    pass".data).mp (by decide))
    rw [ha]
    simp [Except.toOption, hc]
  · obtain ⟨a, ha, hiff⟩ := c7_class_flag_iff_keyword
      (fun _ => Except.ok "x = 1") "calc.py" "x = 1" rfl
    have hc : a.has_classes = false := by
      cases hcl : a.has_classes
      · rfl
      · exact absurd ((pyContains_iff "class ".data "x = 1".data).mpr (hiff.mp hcl))
          (by decide)
    rw [ha]
    simp [Except.toOption, hc]

/-- C10: for every file whose read succeeds, the reported line count is
the number of newline characters in the content plus one; in particular
an empty file reports 1 line. -/
theorem c10_line_count (readFile : String → Except String String)
    (file_path content : String) (h : readFile file_path = Except.ok content) :
    ∃ a, codeAnalyzerTool_run readFile file_path = Except.ok a ∧
      a.lines = content.data.count '\n' + 1 ∧ (content = "" → a.lines = 1) := by
  unfold codeAnalyzerTool_run
  rw [h]
  refine ⟨_, rfl, pySplitChar_length '\n' content.data, ?_⟩
  intro he
  subst he
  rfl

/-- Witness for C10: the empty file reports one line, a two-line file
reports two. -/
theorem c10_witness :
    ((codeAnalyzerTool_run (fun _ => Except.ok "") "empty.py").toOption.map Analysis.lines)
      = some 1 ∧
    ((codeAnalyzerTool_run (fun _ => Except.ok "a\nb") "two.py").toOption.map Analysis.lines)
      = some 2 := by
  constructor
  · obtain ⟨a, ha, hcount, hempty⟩ :=
      c10_line_count (fun _ => Except.ok "") "empty.py" "" rfl
    rw [ha]
    simp [Except.toOption, hempty rfl]
  · obtain ⟨a, ha, hcount, hempty⟩ :=
      c10_line_count (fun _ => Except.ok "a\nb") "two.py" "a\nb" rfl
    have h2 : a.lines = 2 := hcount.trans (by decide)
    rw [ha]
    simp [Except.toOption, h2]

/-- C8: for every readable file, the `imports` list is the in-order
selection of the lines whose stripped form starts with one of the
recognized import markers (`import `, `from `, `require`, `include`),
each recorded in its stripped form; every listed entry matches a marker
and no other line contributes. -/
theorem c8_import_lines (readFile : String → Except String String)
    (file_path content : String) (h : readFile file_path = Except.ok content) :
    ∃ a, codeAnalyzerTool_run readFile file_path = Except.ok a ∧
      a.imports = ((pySplitChar '\n' content.data).filter
          (fun l => isImportLine (pyStrip l))).map (fun l => String.mk (pyStrip l)) ∧
      ∀ s ∈ a.imports, isImportLine s.data = true := by
  unfold codeAnalyzerTool_run
  rw [h]
  refine ⟨_, rfl, ?_, ?_⟩
  · exact filterMap_guard (fun l => isImportLine (pyStrip l))
      (fun l => String.mk (pyStrip l)) (pySplitChar '\n' content.data)
  · intro s hs
    simp only [List.mem_filterMap] at hs
    obtain ⟨l, hl, hguard⟩ := hs
    by_cases hp : isImportLine (pyStrip l)
    · simp only [if_pos hp] at hguard
      cases hguard
      exact hp
    · simp [if_neg hp] at hguard

/-- Witness for C8 on a three-line file: the indented import line is kept
(stripped) and kept in order, the assignment line is dropped. -/
theorem c8_witness :
    ((codeAnalyzerTool_run
        (fun _ => Except.ok "import os\nx = 1\n  from a import b") "m.py").toOption.map
      Analysis.imports) = some ["import os", "from a import b"] := by
  obtain ⟨a, ha, heq, hall⟩ := c8_import_lines
    (fun _ => Except.ok "import os\nx = 1\n  from a import b") "m.py"
    "import os\nx = 1\n  from a import b" rfl
  have h2 : a.imports = ["import os", "from a import b"] := heq.trans (by decide)
  rw [ha]
  simp [Except.toOption, h2]

/-- A stub external collaborator that returns the fixed string
`"stage<i>-output"` for the stage at (zero-based) position `i - 1`,
ignoring the assembled context. -/
def stubCollab : Nat → String → Except String String :=
  fun i _ => Except.ok ("stage" ++ toString (i + 1) ++ "-output")

/-- A stub external collaborator that fails at the second stage
(zero-based index 1) and succeeds elsewhere. -/
def failingCollab : Nat → String → Except String String :=
  fun i _ =>
    if i = 1 then Except.error "model call failed"
    else Except.ok ("stage" ++ toString (i + 1) ++ "-output")

/-- The pipeline-trace invariant: every executed stage sits at its own
position, and the upstream results placed into its context are exactly
the captured outputs of the stages in its dependency list, in the listed
order, drawn from the stages that ran before it — and nothing else. -/
def traceOk (tr : List StageRecord) : Prop :=
  ∀ k (hk : k < tr.length),
    (tr.get ⟨k, hk⟩).index = k ∧
    (tr.get ⟨k, hk⟩).upstream =
      (tr.get ⟨k, hk⟩).depends_on.map
        (fun j => ((tr.map StageRecord.output).take k).getD j "")

theorem traceOk_nil : traceOk [] := by
  intro k hk
  exact absurd hk (Nat.not_lt_zero k)

/-- The record `runStages` appends for a freshly executed stage with
dependency list `deps` and captured output `out`. -/
def appendedRecord (tr : List StageRecord) (deps : List Nat) (out : String) : StageRecord where
  index := tr.length
  depends_on := deps
  upstream := deps.map (fun j => (tr.map StageRecord.output).getD j "")
  output := out

theorem traceOk_append (tr : List StageRecord) (deps : List Nat) (out : String)
    (h : traceOk tr) :
    traceOk (tr ++ [appendedRecord tr deps out]) := by
  intro k hk
  have hlen : (tr ++ [appendedRecord tr deps out]).length = tr.length + 1 := by simp
  by_cases hlt : k < tr.length
  · have hget : (tr ++ [appendedRecord tr deps out]).get ⟨k, hk⟩ = tr.get ⟨k, hlt⟩ := by
      simp only [List.get_eq_getElem]
      exact List.getElem_append_left hlt
    have htake : ((tr ++ [appendedRecord tr deps out]).map StageRecord.output).take k
        = (tr.map StageRecord.output).take k := by
      rw [List.map_append]
      exact List.take_append_of_le_length (by simpa using Nat.le_of_lt hlt)
    rw [hget, htake]
    exact h k hlt
  · have hk0 : k = tr.length := by
      have hk2 := hk
      rw [hlen] at hk2
      omega
    subst hk0
    have hget : (tr ++ [appendedRecord tr deps out]).get ⟨tr.length, hk⟩
        = appendedRecord tr deps out := by
      simp only [List.get_eq_getElem]
      exact List.getElem_concat_length tr _ tr.length rfl _
    have htake : ((tr ++ [appendedRecord tr deps out]).map StageRecord.output).take tr.length
        = tr.map StageRecord.output := by
      rw [List.map_append]
      exact List.take_left' (by simp)
    rw [hget, htake]
    exact ⟨rfl, rfl⟩

/-- One unfolding step of `runStages` on a non-empty stage list. -/
theorem runStages_cons (collab : Nat → String → Except String String) (param : String)
    (t : TaskDef) (rest : List TaskDef) (tr : List StageRecord) :
    runStages collab param (t :: rest) tr =
      match collab tr.length (assembleContext t param (tr.map StageRecord.output)).2 with
      | .error e => (tr, some { stage := tr.length, msg := e })
      | .ok out =>
        runStages collab param rest (tr ++ [appendedRecord tr t.context out]) := rfl

/-- `runStages` preserves the trace invariant. -/
theorem runStages_traceOk (collab : Nat → String → Except String String) (param : String) :
    ∀ (stages : List TaskDef) (tr : List StageRecord), traceOk tr →
      traceOk (runStages collab param stages tr).1 := by
  intro stages
  induction stages with
  | nil => intro tr h; exact h
  | cons t rest ih =>
    intro tr h
    rw [runStages_cons]
    cases collab tr.length (assembleContext t param (tr.map StageRecord.output)).2 with
    | error e => exact h
    | ok out => exact ih _ (traceOk_append tr t.context out h)

/-- C1: every run of the crew's pipeline satisfies the context invariant
(`traceOk`: each stage's context carries the captured results of exactly
the stages in its `context` dependency list, concatenated in the listed
order, and nothing else), and on the concrete four-stage pipeline the
upstream results are: stage 1 none, stage 2 only stage 1's result,
stage 3 stage 1's then stage 2's, stage 4 only stage 3's. -/
theorem c1_context_is_exactly_dependencies :
    (∀ collab param, traceOk (crewKickoff collab documentation_crew param).1) ∧
    ((crewKickoff stubCollab documentation_crew "test_project").1.map StageRecord.upstream =
      [[], ["stage1-output"], ["stage1-output", "stage2-output"], ["stage3-output"]]) := by
  constructor
  · intro collab param
    exact runStages_traceOk collab param documentation_crew.tasks [] traceOk_nil
  · rfl

/-- Witness for C1: stage 3 (index 2) of the concrete pipeline received
exactly the captured results of stages 1 and 2, in that order. -/
theorem c1_witness :
    ((crewKickoff stubCollab documentation_crew "test_project").1.get ⟨2, by decide⟩).upstream
      = ["stage1-output", "stage2-output"] := by
  have h := c1_context_is_exactly_dependencies.1 stubCollab "test_project" 2 (by decide)
  rw [h.2]
  decide

/-- On a collaborator failure, the executed-stage positions of the final
trace are exactly `0, ..., f.stage - 1`, the failing stage is the first
unexecuted one, and the collaborator did signal an error there. -/
theorem runStages_failure (collab : Nat → String → Except String String) (param : String) :
    ∀ (stages : List TaskDef) (tr tr' : List StageRecord) (f : StageFailure),
      tr.map StageRecord.index = List.range tr.length →
      runStages collab param stages tr = (tr', some f) →
      tr'.map StageRecord.index = List.range f.stage ∧ f.stage = tr'.length ∧
        ∃ ctx, collab f.stage ctx = Except.error f.msg := by
  intro stages
  induction stages with
  | nil =>
    intro tr tr' f h hrun
    exact absurd (congrArg Prod.snd hrun) (by simp [runStages])
  | cons t rest ih =>
    intro tr tr' f h hrun
    rw [runStages_cons] at hrun
    cases hcol : collab tr.length (assembleContext t param (tr.map StageRecord.output)).2 with
    | error e =>
      rw [hcol] at hrun
      obtain ⟨h1, h2⟩ := Prod.mk.injEq .. ▸ hrun
      cases h1
      cases Option.some.injEq .. ▸ h2
      exact ⟨by simpa [List.length_map] using h, by simp, _, hcol⟩
    | ok out =>
      rw [hcol] at hrun
      refine ih (tr ++ [appendedRecord tr t.context out]) tr' f ?_ hrun
      rw [List.map_append, h, List.length_append]
      simp [appendedRecord, List.range_succ]

/-- C2: if the collaborator signals a failure at stage `k` of the crew's
pipeline, no stage after `k` executes (the final trace holds exactly the
stages before `k`), the run's overall result is a failure whose `stage`
field references `k` (the first stage beyond the trace), and the failure
carries the message the collaborator signalled at `k`; nothing here
retries. -/
theorem c2_failure_aborts_pipeline (collab : Nat → String → Except String String)
    (param : String) (tr : List StageRecord) (f : StageFailure)
    (h : crewKickoff collab documentation_crew param = (tr, some f)) :
    tr.map StageRecord.index = List.range f.stage ∧ f.stage = tr.length ∧
      ∃ ctx, collab f.stage ctx = Except.error f.msg :=
  runStages_failure collab param documentation_crew.tasks [] tr f (by simp) h

/-- The single record produced before `failingCollab` fails at stage 1. -/
def firstStageRecord : StageRecord where
  index := 0
  depends_on := []
  upstream := []
  output := "stage1-output"

/-- Witness for C2: with a collaborator failing at stage index 1, only
stage 0 executed and the surfaced failure references stage 1. -/
theorem c2_witness :
    [firstStageRecord].map StageRecord.index = List.range (1 : Nat) ∧
    (1 : Nat) = [firstStageRecord].length := by
  have h := c2_failure_aborts_pipeline failingCollab "test_project" [firstStageRecord]
    { stage := 1, msg := "model call failed" } rfl
  exact ⟨h.1, h.2.1⟩

/-- C9: invoked with a target directory that does not exist, the entry
point prints the two diagnostic lines, exits with status 1 (non-zero) and
never reaches `documentation_crew.kickoff`, whatever the pipeline would
have produced. -/
theorem c9_missing_directory_is_fatal (projectDir : String) (numFiles : Nat)
    (kickoff : Except String String) (readmeLines : Option Nat) :
    (mainEntry projectDir false numFiles kickoff readmeLines).exitCode = 1 ∧
    (mainEntry projectDir false numFiles kickoff readmeLines).pipelineInvoked = false ∧
    (mainEntry projectDir false numFiles kickoff readmeLines).printed =
      ["ERROR: Directory " ++ sq ++ projectDir ++ sq ++ " not found!",
        "Please set PROJECT_DIR environment variable or ensure " ++ sq
          ++ "test_project" ++ sq ++ " exists."] :=
  ⟨rfl, rfl, rfl⟩

/-- Counterexample to C3 as stated: at a concrete pipeline failure the
entry point exits with status 0 — not non-zero — and prints two
diagnostic lines after the five header lines, not a single one. -/
theorem c3_counterexample :
    (mainEntry "test_project" true 3 (Except.error "model error") none).exitCode = 0 ∧
    (mainEntry "test_project" true 3 (Except.error "model error") none).printed.drop 5 =
      ["\n❌ Error during execution: model error",
        "Please check your configuration and try again."] :=
  ⟨rfl, rfl⟩

/-- C3 (amended): when the pipeline raises a failure, the entry point
catches it, prints two diagnostic messages (after the five header lines),
and the process finishes with exit status 0 — the failure is swallowed
and no non-zero exit occurs. -/
theorem c3_amended_failure_swallowed (projectDir : String) (numFiles : Nat)
    (e : String) (readmeLines : Option Nat) :
    (mainEntry projectDir true numFiles (Except.error e) readmeLines).exitCode = 0 ∧
    (mainEntry projectDir true numFiles (Except.error e) readmeLines).printed.drop 5 =
      ["\n❌ Error during execution: " ++ e,
        "Please check your configuration and try again."] ∧
    (mainEntry projectDir true numFiles (Except.error e) readmeLines).pipelineInvoked
      = true :=
  ⟨rfl, rfl, rfl⟩

end MADS
